import Mathlib

/-!
Verification of the AI Coder code-generation pipeline.

Shallow embedding of the source files:
  src/generators/openai_engine.py  (CodeGenerator: budget calculator, file
    classifier, prompt builder, per-file generation loop, project orchestrator)
  src/writers/file_writer.py       (AdvancedFileWriter.clear_project_directory)
  src/main.py                      (AICoderPro._generate_file_structure)

Strings are modelled with Lean String values; where Python checks substrings
of a lowercased path, the embedding works on the underlying character list.
The generation backend (openai chat completion) and the tokenizer (tiktoken)
are external dependencies; they are modelled as function parameters: the
backend is indexed by the attempt number to represent the sequence of
responses one concrete run of the service would produce, and the tokenizer is
an arbitrary deterministic token-count function.
-/

/-- Character class on which Python str.splitlines splits (line boundaries). -/
def isLineBoundary (c : Char) : Bool :=
  c = '\n' || c = '\r' || c = '\x0b' || c = '\x0c' ||
  c = '\x1c' || c = '\x1d' || c = '\x1e' || c = '\x85' ||
  c = '\u2028' || c = '\u2029'

/-- Number of lines of a text, as computed by Python len(code.splitlines()):
a trailing line terminator does not open a new line, and a carriage return
followed by a line feed counts as a single boundary. -/
def splitlinesCount : List Char → Nat
  | [] => 0
  | '\r' :: '\n' :: rest => 1 + splitlinesCount rest
  | '\r' :: rest => 1 + splitlinesCount rest
  | c :: rest =>
    if isLineBoundary c then 1 + splitlinesCount rest
    else max 1 (splitlinesCount rest)

/-- Python expression needle in hay.lower(): substring test on the lowercased
text, modelled on character lists. -/
def lower_contains (hay needle : String) : Bool :=
  decide (needle.toList <:+: (hay.toList.map Char.toLower))

/-- Python expression s.endswith(suffix) (case-sensitive). -/
def ends_with (s suffix : String) : Bool :=
  decide (suffix.toList <:+ s.toList)

/-- Errors raised by the generation backend call
(openai chat.completions.create): rate limit, timeout, invalid key, network. -/
inductive BackendErr where
  | rate_limit
  | timeout
  | invalid_key
  | network
deriving DecidableEq

/-- Errors that can escape the CodeGenerator methods: a propagated backend
error, the ValueError raised after 3 failed attempts, and the
ZeroDivisionError raised by integer division by a zero file count. -/
inductive GenError where
  | backendError (e : BackendErr)
  | valueError (msg : String)
  | zeroDivisionError
deriving DecidableEq

/-- One outbound request to the generation backend, as assembled in
generate_file (model gpt-4.1, system message, user message, max_tokens;
the float sampling constants temperature 0.2 and top_p 0.9 are fixed in the
source and carry no information for the claims, so they are not fields). -/
structure ChatRequest where
  model : String
  system_content : String
  user_content : String
  max_tokens : Nat
deriving DecidableEq

/-- State of a CodeGenerator instance: the two mode flags set in __init__.
(self.client and self.tokenizer are the external collaborators, passed to the
embedded methods as function arguments.) -/
structure CodeGenerator where
  strict_mode : Bool
  detailed_mode : Bool
deriving DecidableEq

/-- Attribute self.max_lines, set to 50000 in CodeGenerator.__init__. -/
def CodeGenerator.max_lines (_ : CodeGenerator) : Nat := 50000

/-- CodeGenerator._calculate_limits. Python computes
max_lines_per_file = min(5000, self.max_lines // file_count); the // operator
raises ZeroDivisionError when file_count is 0, modelled as an explicit error
value. -/
def CodeGenerator._calculate_limits (g : CodeGenerator) (file_count : Nat) :
    Except GenError (Nat × Nat) :=
  if file_count = 0 then Except.error GenError.zeroDivisionError
  else
    let max_tokens := 32000
    let max_lines_per_file := min 5000 (g.max_lines / file_count)
    Except.ok (max_tokens, max_lines_per_file)

/-- CodeGenerator._is_ui_file: keyword substring test on the lowercased path,
or a case-sensitive extension match. -/
def CodeGenerator._is_ui_file (_ : CodeGenerator) (file_path : String) : Bool :=
  lower_contains file_path "ui"
  || lower_contains file_path "screen"
  || lower_contains file_path "window"
  || (ends_with file_path ".html" || ends_with file_path ".ui"
      || ends_with file_path ".xml" || ends_with file_path ".css")

/-- Minimum line count applied by generate_file (source line 52):
min_lines = 500 if is_ui_file else 20. -/
def CodeGenerator.min_lines_for (g : CodeGenerator) (file_path : String) : Nat :=
  if g._is_ui_file file_path then 500 else 20

/-- Minimum token count applied by generate_file (source line 53):
min_tokens = 2000 if is_ui_file else 300. -/
def CodeGenerator.min_tokens_for (g : CodeGenerator) (file_path : String) : Nat :=
  if g._is_ui_file file_path then 2000 else 300

/-- CodeGenerator._build_prompt: the instruction text, with the strict-mode
and detailed-mode additions appended when the respective flag is set. -/
def CodeGenerator._build_prompt (g : CodeGenerator) (file_path file_description : String)
    (max_lines max_tokens min_lines min_tokens : Nat) : String :=
  let system_prompt :=
    "You are a senior developer. Generate complete, production-ready code for:\n- File: "
    ++ file_path ++ "\n- Purpose: " ++ file_description ++ "\n- Max "
    ++ toString max_lines ++ " lines / Max " ++ toString max_tokens
    ++ " tokens\n- Do not include TODOs, placeholders, or stub functions."
  let system_prompt :=
    if g.strict_mode then
      system_prompt ++ "\n- Must be ≥ " ++ toString min_lines ++ " lines and ≥ "
      ++ toString min_tokens ++ " tokens."
    else system_prompt
  if g.detailed_mode then
    system_prompt
    ++ "\n- Use the full available line and token budget.\n- Add as much functionality, UI structure, helper functions, and refinements as possible.\n- Include comments to explain logic where helpful.\n- Think like an engineer delivering a top-tier production file.\n- Add extras like accessibility, error handling, modularity, etc., where appropriate."
  else system_prompt

/-- The request generate_file sends on one attempt: model gpt-4.1, the freshly
rebuilt system prompt and the user message derived from the shared prompt and
the file description. -/
def attemptRequest (g : CodeGenerator) (prompt file_description file_path : String)
    (max_tokens max_lines min_lines min_tokens : Nat) : ChatRequest :=
  ChatRequest.mk "gpt-4.1"
    (g._build_prompt file_path file_description max_lines max_tokens min_lines min_tokens)
    (prompt ++ "\n\nCreate this file: " ++ file_description)
    max_tokens

/-- Message of the ValueError raised when all 3 attempts are rejected. -/
def failMsg (file_path : String) : String :=
  "❌ " ++ file_path ++ " failed to meet requirements after 3 attempts."

/-- The retry loop body of generate_file: for attempt in range(1, 4). The
first component of the result is the returned content or the escaping error;
the second counts the backend requests issued. A backend error is not caught
by the source, so it aborts the loop at once. -/
def generate_file_attempts (g : CodeGenerator)
    (backend : Nat → ChatRequest → Except BackendErr String) (tok : String → Nat)
    (prompt file_description file_path : String)
    (max_tokens max_lines min_lines min_tokens : Nat) :
    List Nat → Nat → Except GenError String × Nat
  | [], issued => (Except.error (GenError.valueError (failMsg file_path)), issued)
  | attempt :: rest, issued =>
    match backend attempt
        (attemptRequest g prompt file_description file_path
          max_tokens max_lines min_lines min_tokens) with
    | Except.error e => (Except.error (GenError.backendError e), issued + 1)
    | Except.ok code =>
      let line_count := splitlinesCount code.toList
      let token_count := tok code
      if g.strict_mode = true ∧ (line_count < min_lines ∨ token_count < min_tokens) then
        generate_file_attempts g backend tok prompt file_description file_path
          max_tokens max_lines min_lines min_tokens rest (issued + 1)
      else (Except.ok code, issued + 1)

/-- CodeGenerator.generate_file: compute budgets and minimums, then run the
3-attempt loop. file_num is accepted but unused, as in the source. -/
def CodeGenerator.generate_file (g : CodeGenerator)
    (backend : Nat → ChatRequest → Except BackendErr String) (tok : String → Nat)
    (prompt file_description : String) (file_num total_files : Nat)
    (file_path : String) : Except GenError String × Nat :=
  match g._calculate_limits total_files with
  | Except.error e => (Except.error e, 0)
  | Except.ok (max_tokens, max_lines) =>
    generate_file_attempts g backend tok prompt file_description file_path
      max_tokens max_lines (g.min_lines_for file_path) (g.min_tokens_for file_path)
      [1, 2, 3] 0

/-- Python expression sum(len(c.splitlines()) for c in results.values()). -/
def resultsLineTotal (results : List (String × String)) : Nat :=
  (results.map fun p => splitlinesCount p.2.toList).sum

/-- Loop body of generate_project: enumerate(file_structure.items(), 1).
After appending a generated file the running line total is compared against
45000; when it exceeds the ceiling the loop breaks and the results so far are
returned. An error from generate_file propagates. -/
def generate_project_go (g : CodeGenerator)
    (backend : Nat → ChatRequest → Except BackendErr String) (tok : String → Nat)
    (prompt : String) (total_files : Nat) :
    List (String × String) → Nat → List (String × String) →
    Except GenError (List (String × String))
  | [], _, results => Except.ok results
  | entry :: rest, i, results =>
    match (g.generate_file backend tok prompt entry.2 i total_files entry.1).1 with
    | Except.error e => Except.error e
    | Except.ok code =>
      if 45000 < resultsLineTotal (results ++ [(entry.1, code)]) then
        Except.ok (results ++ [(entry.1, code)])
      else
        generate_project_go g backend tok prompt total_files rest (i + 1)
          (results ++ [(entry.1, code)])

/-- CodeGenerator.generate_project: total_files = len(file_structure), then
the enumerated loop starting at index 1 with an empty results mapping. The
manifest is an ordered association list, matching Python dict iteration
order. -/
def CodeGenerator.generate_project (g : CodeGenerator)
    (backend : Nat → ChatRequest → Except BackendErr String) (tok : String → Nat)
    (prompt : String) (file_structure : List (String × String)) :
    Except GenError (List (String × String)) :=
  generate_project_go g backend tok prompt file_structure.length file_structure 1 []

/-- Static default manifest base_files of AICoderPro._generate_file_structure. -/
def base_files : List (String × String) :=
  [("main.py", "Primary application entry point"),
   ("requirements.txt", "Project dependencies"),
   ("config/__init__.py", "Configuration package"),
   ("config/settings.py", "Main configuration file"),
   ("tests/__init__.py", "Test package"),
   ("README.md", "Project documentation")]

/-- Entries added when the tech stack mentions fastapi. -/
def fastapi_files : List (String × String) :=
  [("app/main.py", "FastAPI application"),
   ("app/routers/api_v1.py", "API version 1 router"),
   ("app/models/__init__.py", "Data models"),
   ("app/schemas/__init__.py", "Pydantic schemas")]

/-- Entries added when the tech stack mentions flask. -/
def flask_files : List (String × String) :=
  [("app/__init__.py", "Flask application factory"),
   ("app/routes.py", "Main routes"),
   ("app/templates/base.html", "Base template"),
   ("app/static/css/main.css", "Main stylesheet")]

/-- Entries added when the features mention docker. -/
def docker_files : List (String × String) :=
  [("Dockerfile", "Production container definition"),
   ("docker-compose.yml", "Development environment"),
   (".dockerignore", "Docker ignore rules")]

/-- AICoderPro._generate_file_structure: the default manifest plus
keyword-conditional additions. dict.update with fresh keys appends entries in
insertion order, modelled by list append. -/
def AICoderPro._generate_file_structure (features tech_stack : String) :
    List (String × String) :=
  let bf :=
    if lower_contains tech_stack "fastapi" then base_files ++ fastapi_files
    else if lower_contains tech_stack "flask" then base_files ++ flask_files
    else base_files
  if lower_contains features "docker" then bf ++ docker_files else bf

/-- A directory tree: the files directly inside a directory and its named
subdirectories. The root stands for the base path of an AdvancedFileWriter. -/
inductive FSTree where
  | dir : List String → List (String × FSTree) → FSTree

/-- Directory emptiness, the precondition of os.rmdir. -/
def FSTree.isEmptyDir : FSTree → Bool
  | FSTree.dir files subs => files.isEmpty && subs.isEmpty

mutual
/-- Effect of os.walk(base, topdown=False) with os.remove on every file and
os.rmdir on every subdirectory, seen from one directory node: deeper
directories are processed first, then the files of this node are removed and
its (by then processed) subdirectories are rmdir-ed. os.rmdir fails on a
nonempty directory, modelled by the emptiness guard returning none. -/
def clearWalk : FSTree → Option FSTree
  | FSTree.dir _files subs =>
    match clearList subs with
    | none => none
    | some cleared =>
      if cleared.all FSTree.isEmptyDir then some (FSTree.dir [] []) else none

/-- Process a list of subdirectories bottom-up, returning the cleared trees. -/
def clearList : List (String × FSTree) → Option (List FSTree)
  | [] => some []
  | (_nm, s) :: rest =>
    match clearWalk s with
    | none => none
    | some c =>
      match clearList rest with
      | none => none
      | some cs => some (c :: cs)
end

/-- AdvancedFileWriter.clear_project_directory on an existing base directory:
the bottom-up walk removing every file and subdirectory strictly under the
base; the base directory itself is never passed to os.rmdir. -/
def AdvancedFileWriter.clear_project_directory (base : FSTree) : Option FSTree :=
  clearWalk base

/-! Helper lemmas -/

/-- Unfolding of String.toList on an explicit character list. -/
theorem toList_mk (l : List Char) : (String.mk l).toList = l := rfl

/-- String append distributes over toList. -/
theorem toList_append (a b : String) : (a ++ b).toList = a.toList ++ b.toList :=
  String.data_append a b

/-- A line feed at the head of a text opens one further line. -/
theorem splitlinesCount_nl_cons (l : List Char) :
    splitlinesCount ('\n' :: l) = 1 + splitlinesCount l := rfl

/-- A text of n line-feed characters has exactly n lines under splitlines. -/
theorem splitlinesCount_replicate_nl (n : Nat) :
    splitlinesCount (List.replicate n '\n') = n := by
  induction n with
  | zero => rfl
  | succ k ih =>
    rw [List.replicate_succ, splitlinesCount_nl_cons, ih]
    omega

/-- The running line total is additive over list append. -/
theorem resultsLineTotal_append (a b : List (String × String)) :
    resultsLineTotal (a ++ b) = resultsLineTotal a + resultsLineTotal b := by
  simp [resultsLineTotal]

/-- The running line total is monotone along list prefixes. -/
theorem resultsLineTotal_mono (p q : List (String × String)) (h : p <+: q) :
    resultsLineTotal p ≤ resultsLineTotal q := by
  obtain ⟨t, rfl⟩ := h
  rw [resultsLineTotal_append]
  exact Nat.le_add_right _ _

/-- generate_file reduces to the attempt loop once the budget computation
succeeds. -/
theorem generate_file_eq (g : CodeGenerator)
    (backend : Nat → ChatRequest → Except BackendErr String) (tok : String → Nat)
    (prompt file_description file_path : String) (file_num total_files mt ml : Nat)
    (hlim : g._calculate_limits total_files = Except.ok (mt, ml)) :
    g.generate_file backend tok prompt file_description file_num total_files file_path =
      generate_file_attempts g backend tok prompt file_description file_path
        mt ml (g.min_lines_for file_path) (g.min_tokens_for file_path) [1, 2, 3] 0 := by
  rw [CodeGenerator.generate_file, hlim]

/-- Acceptance condition of the strict-mode check in generate_file: the
content meets both applicable minimums. -/
def meets_minimums (g : CodeGenerator) (tok : String → Nat)
    (file_path code : String) : Prop :=
  g.min_lines_for file_path ≤ splitlinesCount code.toList ∧
  g.min_tokens_for file_path ≤ tok code

instance meets_minimums_decidable (g : CodeGenerator) (tok : String → Nat)
    (file_path code : String) : Decidable (meets_minimums g tok file_path code) := by
  unfold meets_minimums
  infer_instance

/-- One attempt whose backend call raises: the error escapes the loop at once,
with exactly this one further request issued. -/
theorem attempts_step_error (g : CodeGenerator)
    (backend : Nat → ChatRequest → Except BackendErr String) (tok : String → Nat)
    (prompt file_description file_path : String)
    (max_tokens max_lines min_lines min_tokens attempt issued : Nat)
    (rest : List Nat) (e : BackendErr)
    (hb : backend attempt (attemptRequest g prompt file_description file_path
        max_tokens max_lines min_lines min_tokens) = Except.error e) :
    generate_file_attempts g backend tok prompt file_description file_path
        max_tokens max_lines min_lines min_tokens (attempt :: rest) issued =
      (Except.error (GenError.backendError e), issued + 1) := by
  rw [generate_file_attempts, hb]

/-- One attempt whose result passes the acceptance test (or strict mode is
off): the content is returned. -/
theorem attempts_step_accept (g : CodeGenerator)
    (backend : Nat → ChatRequest → Except BackendErr String) (tok : String → Nat)
    (prompt file_description file_path : String)
    (max_tokens max_lines min_lines min_tokens attempt issued : Nat)
    (rest : List Nat) (code : String)
    (hb : backend attempt (attemptRequest g prompt file_description file_path
        max_tokens max_lines min_lines min_tokens) = Except.ok code)
    (hacc : ¬ (g.strict_mode = true ∧
        (splitlinesCount code.toList < min_lines ∨ tok code < min_tokens))) :
    generate_file_attempts g backend tok prompt file_description file_path
        max_tokens max_lines min_lines min_tokens (attempt :: rest) issued =
      (Except.ok code, issued + 1) := by
  rw [generate_file_attempts, hb]
  simp only []
  rw [if_neg hacc]

/-- One attempt whose result fails the strict acceptance test: the loop moves
on to the remaining attempts. -/
theorem attempts_step_reject (g : CodeGenerator)
    (backend : Nat → ChatRequest → Except BackendErr String) (tok : String → Nat)
    (prompt file_description file_path : String)
    (max_tokens max_lines min_lines min_tokens attempt issued : Nat)
    (rest : List Nat) (code : String)
    (hb : backend attempt (attemptRequest g prompt file_description file_path
        max_tokens max_lines min_lines min_tokens) = Except.ok code)
    (hrej : g.strict_mode = true ∧
        (splitlinesCount code.toList < min_lines ∨ tok code < min_tokens)) :
    generate_file_attempts g backend tok prompt file_description file_path
        max_tokens max_lines min_lines min_tokens (attempt :: rest) issued =
      generate_file_attempts g backend tok prompt file_description file_path
        max_tokens max_lines min_lines min_tokens rest (issued + 1) := by
  rw [generate_file_attempts, hb]
  simp only []
  rw [if_pos hrej]

/-! Concrete stubs used by counterexamples and witnesses -/

/-- Stub content of 300 line-feed characters: 300 lines and 300 characters. -/
def goodContent : String := String.mk (List.replicate 300 '\n')

/-- Stub content of 45001 line-feed characters: 45001 lines. -/
def bigContent : String := String.mk (List.replicate 45001 '\n')

/-- Tokenizer stub counting one token per character. -/
def lengthTok : String → Nat := fun s => s.toList.length

/-- Backend stub that raises a timeout on attempt 1 and would return
adequate-size content on any later attempt. -/
def errorThenGood : Nat → ChatRequest → Except BackendErr String := fun attempt _ =>
  if attempt = 1 then Except.error BackendErr.timeout else Except.ok goodContent

/-- Backend stub that returns adequate-size content only on attempt 3. -/
def thirdTimeGood : Nat → ChatRequest → Except BackendErr String := fun attempt _ =>
  if attempt = 3 then Except.ok goodContent else Except.ok "short"

/-! Claim C1 -/

/-- C1 counterexample: with a backend that raises a timeout on attempt 1 and
would return acceptable content from attempt 2 on, generate_file propagates
the backend error after exactly one issued request. The loop does not proceed
to attempt 2, although the attempt 2 response exists and meets the minimums,
so a backend error is not treated like an acceptance failure and no further
backend requests are issued. -/
theorem C1_counterexample :
    CodeGenerator.generate_file ⟨true, false⟩ errorThenGood lengthTok "p" "d" 1 1 "main.py" =
      (Except.error (GenError.backendError BackendErr.timeout), 1) ∧
    errorThenGood 2 (attemptRequest ⟨true, false⟩ "p" "d" "main.py" 32000 5000 20 300) =
      Except.ok goodContent ∧
    meets_minimums ⟨true, false⟩ lengthTok "main.py" goodContent := by
  refine ⟨rfl, rfl, ?_⟩
  set_option maxRecDepth 40000 in decide

/-- C1 as amended: an error raised by the generation backend call is not
treated like an acceptance failure; it propagates out of generate_file at
once, so after a backend error on attempt 1 exactly one backend request has
been issued and no further attempts occur. -/
theorem C1_backend_error_aborts (g : CodeGenerator)
    (backend : Nat → ChatRequest → Except BackendErr String) (tok : String → Nat)
    (prompt file_description file_path : String)
    (file_num total_files mt ml : Nat) (e : BackendErr)
    (hlim : g._calculate_limits total_files = Except.ok (mt, ml))
    (hb : backend 1 (attemptRequest g prompt file_description file_path mt ml
        (g.min_lines_for file_path) (g.min_tokens_for file_path)) = Except.error e) :
    g.generate_file backend tok prompt file_description file_num total_files file_path =
      (Except.error (GenError.backendError e), 1) := by
  rw [generate_file_eq g backend tok prompt file_description file_path
    file_num total_files mt ml hlim]
  exact attempts_step_error g backend tok prompt file_description file_path
    mt ml (g.min_lines_for file_path) (g.min_tokens_for file_path) 1 0 [2, 3] e hb

/-- Witness for C1_backend_error_aborts at a concrete input. -/
theorem C1_witness :
    CodeGenerator.generate_file ⟨false, true⟩ errorThenGood lengthTok "build an app"
        "entry point" 2 5 "app.py" =
      (Except.error (GenError.backendError BackendErr.timeout), 1) :=
  C1_backend_error_aborts ⟨false, true⟩ errorThenGood lengthTok "build an app"
    "entry point" "app.py" 2 5 32000 5000 BackendErr.timeout rfl rfl

/-! Claim C2 -/

/-- C2: in strict mode the loop accepts a result exactly when it meets both
applicable minimums; after three rejected results it raises the
size-requirement ValueError whose message contains the target path; and with
results that are adequate only on attempt 3 the loop returns that content
after exactly 3 issued requests. -/
theorem C2_strict_loop (g : CodeGenerator)
    (backend : Nat → ChatRequest → Except BackendErr String) (tok : String → Nat)
    (prompt file_description file_path : String)
    (file_num total_files mt ml : Nat) (c1 c2 c3 : String)
    (hstrict : g.strict_mode = true)
    (hlim : g._calculate_limits total_files = Except.ok (mt, ml))
    (h1 : backend 1 (attemptRequest g prompt file_description file_path mt ml
        (g.min_lines_for file_path) (g.min_tokens_for file_path)) = Except.ok c1)
    (h2 : backend 2 (attemptRequest g prompt file_description file_path mt ml
        (g.min_lines_for file_path) (g.min_tokens_for file_path)) = Except.ok c2)
    (h3 : backend 3 (attemptRequest g prompt file_description file_path mt ml
        (g.min_lines_for file_path) (g.min_tokens_for file_path)) = Except.ok c3) :
    (meets_minimums g tok file_path c1 →
      g.generate_file backend tok prompt file_description file_num total_files file_path =
        (Except.ok c1, 1)) ∧
    (¬ meets_minimums g tok file_path c1 → meets_minimums g tok file_path c2 →
      g.generate_file backend tok prompt file_description file_num total_files file_path =
        (Except.ok c2, 2)) ∧
    (¬ meets_minimums g tok file_path c1 → ¬ meets_minimums g tok file_path c2 →
      meets_minimums g tok file_path c3 →
      g.generate_file backend tok prompt file_description file_num total_files file_path =
        (Except.ok c3, 3)) ∧
    (¬ meets_minimums g tok file_path c1 → ¬ meets_minimums g tok file_path c2 →
      ¬ meets_minimums g tok file_path c3 →
      g.generate_file backend tok prompt file_description file_num total_files file_path =
        (Except.error (GenError.valueError (failMsg file_path)), 3) ∧
      file_path.toList <:+: (failMsg file_path).toList) := by
  have hrej : ∀ code : String, ¬ meets_minimums g tok file_path code →
      g.strict_mode = true ∧ (splitlinesCount code.toList < g.min_lines_for file_path ∨
        tok code < g.min_tokens_for file_path) := by
    intro code hc
    refine ⟨hstrict, ?_⟩
    unfold meets_minimums at hc
    omega
  have hacc : ∀ code : String, meets_minimums g tok file_path code →
      ¬ (g.strict_mode = true ∧ (splitlinesCount code.toList < g.min_lines_for file_path ∨
        tok code < g.min_tokens_for file_path)) := by
    intro code hc hcontra
    unfold meets_minimums at hc
    rcases hcontra with ⟨_, hor⟩
    omega
  refine ⟨?_, ?_, ?_, ?_⟩
  · intro hm1
    rw [generate_file_eq g backend tok prompt file_description file_path
      file_num total_files mt ml hlim]
    exact attempts_step_accept g backend tok prompt file_description file_path
      mt ml (g.min_lines_for file_path) (g.min_tokens_for file_path) 1 0 [2, 3] c1 h1
      (hacc c1 hm1)
  · intro hn1 hm2
    rw [generate_file_eq g backend tok prompt file_description file_path
      file_num total_files mt ml hlim]
    rw [attempts_step_reject g backend tok prompt file_description file_path
      mt ml (g.min_lines_for file_path) (g.min_tokens_for file_path) 1 0 [2, 3] c1 h1
      (hrej c1 hn1)]
    exact attempts_step_accept g backend tok prompt file_description file_path
      mt ml (g.min_lines_for file_path) (g.min_tokens_for file_path) 2 1 [3] c2 h2
      (hacc c2 hm2)
  · intro hn1 hn2 hm3
    rw [generate_file_eq g backend tok prompt file_description file_path
      file_num total_files mt ml hlim]
    rw [attempts_step_reject g backend tok prompt file_description file_path
      mt ml (g.min_lines_for file_path) (g.min_tokens_for file_path) 1 0 [2, 3] c1 h1
      (hrej c1 hn1)]
    rw [attempts_step_reject g backend tok prompt file_description file_path
      mt ml (g.min_lines_for file_path) (g.min_tokens_for file_path) 2 1 [3] c2 h2
      (hrej c2 hn2)]
    exact attempts_step_accept g backend tok prompt file_description file_path
      mt ml (g.min_lines_for file_path) (g.min_tokens_for file_path) 3 2 [] c3 h3
      (hacc c3 hm3)
  · intro hn1 hn2 hn3
    constructor
    · rw [generate_file_eq g backend tok prompt file_description file_path
        file_num total_files mt ml hlim]
      rw [attempts_step_reject g backend tok prompt file_description file_path
        mt ml (g.min_lines_for file_path) (g.min_tokens_for file_path) 1 0 [2, 3] c1 h1
        (hrej c1 hn1)]
      rw [attempts_step_reject g backend tok prompt file_description file_path
        mt ml (g.min_lines_for file_path) (g.min_tokens_for file_path) 2 1 [3] c2 h2
        (hrej c2 hn2)]
      rw [attempts_step_reject g backend tok prompt file_description file_path
        mt ml (g.min_lines_for file_path) (g.min_tokens_for file_path) 3 2 [] c3 h3
        (hrej c3 hn3)]
      rfl
    · refine ⟨"❌ ".toList, " failed to meet requirements after 3 attempts.".toList, ?_⟩
      rw [failMsg, toList_append, toList_append]

/-- Witness for C2_strict_loop: a backend adequate only on attempt 3 makes
the strict loop succeed with exactly 3 issued requests. -/
theorem C2_witness :
    CodeGenerator.generate_file ⟨true, false⟩ thirdTimeGood lengthTok "p" "d" 1 1 "main.py" =
      (Except.ok goodContent, 3) :=
  (C2_strict_loop ⟨true, false⟩ thirdTimeGood lengthTok "p" "d" "main.py" 1 1 32000 5000
    "short" "short" goodContent rfl rfl rfl rfl rfl).2.2.1
    (by decide) (by decide) (by set_option maxRecDepth 40000 in decide)

/-! Claim C5 -/

/-- C5: the budget calculator returns the fixed token ceiling 32000 for every
positive file count, and a per-file line cap equal to
min 5000 (max_lines / file_count), which exceeds neither bound; a zero file
count yields the division error. It is a pure function of its arguments. -/
theorem C5_calculate_limits (g : CodeGenerator) (n : Nat) (h : 1 ≤ n) :
    g._calculate_limits n = Except.ok (32000, min 5000 (g.max_lines / n)) ∧
    (∀ m : Nat, 1 ≤ m → g._calculate_limits m =
      Except.ok (32000, min 5000 (g.max_lines / m))) ∧
    min 5000 (g.max_lines / n) ≤ 5000 ∧
    min 5000 (g.max_lines / n) ≤ g.max_lines / n ∧
    g._calculate_limits 0 = Except.error GenError.zeroDivisionError := by
  have hok : ∀ m : Nat, 1 ≤ m → g._calculate_limits m =
      Except.ok (32000, min 5000 (g.max_lines / m)) := by
    intro m hm
    rw [CodeGenerator._calculate_limits, if_neg (by omega)]
  exact ⟨hok n h, hok, Nat.min_le_left _ _, Nat.min_le_right _ _, rfl⟩

/-- Witness for C5_calculate_limits at file count 7. -/
theorem C5_witness :
    (⟨false, false⟩ : CodeGenerator)._calculate_limits 7 = Except.ok (32000, 5000) ∧
    (⟨false, false⟩ : CodeGenerator)._calculate_limits 0 =
      Except.error GenError.zeroDivisionError := by
  have h := C5_calculate_limits ⟨false, false⟩ 7 (by omega)
  exact ⟨h.1, h.2.2.2.2⟩

/-! Claim C6 -/

/-- C6: when strict mode is off, generate_file returns the first backend
result unconditionally, whatever its line and token counts, after exactly one
issued request. -/
theorem C6_nonstrict_accepts_first (g : CodeGenerator)
    (backend : Nat → ChatRequest → Except BackendErr String) (tok : String → Nat)
    (prompt file_description file_path : String)
    (file_num total_files mt ml : Nat) (c : String)
    (hstrict : g.strict_mode = false)
    (hlim : g._calculate_limits total_files = Except.ok (mt, ml))
    (hb : backend 1 (attemptRequest g prompt file_description file_path mt ml
        (g.min_lines_for file_path) (g.min_tokens_for file_path)) = Except.ok c) :
    g.generate_file backend tok prompt file_description file_num total_files file_path =
      (Except.ok c, 1) := by
  rw [generate_file_eq g backend tok prompt file_description file_path
    file_num total_files mt ml hlim]
  refine attempts_step_accept g backend tok prompt file_description file_path
    mt ml (g.min_lines_for file_path) (g.min_tokens_for file_path) 1 0 [2, 3] c hb ?_
  rintro ⟨hs, _⟩
  rw [hstrict] at hs
  exact Bool.false_ne_true hs

/-- Witness for C6_nonstrict_accepts_first: a 1-line, 5-character result is
accepted at once in non-strict mode. -/
theorem C6_witness :
    CodeGenerator.generate_file ⟨false, false⟩ thirdTimeGood lengthTok "p" "d" 1 2 "main.py" =
      (Except.ok "short", 1) :=
  C6_nonstrict_accepts_first ⟨false, false⟩ thirdTimeGood lengthTok "p" "d" "main.py"
    1 2 32000 5000 "short" rfl rfl rfl

/-! Orchestrator lemmas -/

/-- Backend stub that always returns the 45001-line content. -/
def alwaysBig : Nat → ChatRequest → Except BackendErr String := fun _ _ =>
  Except.ok bigContent

/-- One orchestrator step that stops: the freshly accepted entry pushes the
running line total over 45000, so the loop breaks returning the results so
far. -/
theorem go_step_stop (g : CodeGenerator)
    (backend : Nat → ChatRequest → Except BackendErr String) (tok : String → Nat)
    (prompt : String) (N : Nat) (entry : String × String)
    (rest : List (String × String)) (i : Nat) (results : List (String × String))
    (code : String)
    (hgen : (g.generate_file backend tok prompt entry.2 i N entry.1).1 = Except.ok code)
    (hc : 45000 < resultsLineTotal (results ++ [(entry.1, code)])) :
    generate_project_go g backend tok prompt N (entry :: rest) i results =
      Except.ok (results ++ [(entry.1, code)]) := by
  rw [generate_project_go, hgen]
  show (if 45000 < resultsLineTotal (results ++ [(entry.1, code)]) then
      Except.ok (results ++ [(entry.1, code)])
    else generate_project_go g backend tok prompt N rest (i + 1)
      (results ++ [(entry.1, code)])) = _
  rw [if_pos hc]

/-- One orchestrator step that continues: the accepted entry keeps the
running line total within the ceiling, so the loop proceeds. -/
theorem go_step_continue (g : CodeGenerator)
    (backend : Nat → ChatRequest → Except BackendErr String) (tok : String → Nat)
    (prompt : String) (N : Nat) (entry : String × String)
    (rest : List (String × String)) (i : Nat) (results : List (String × String))
    (code : String)
    (hgen : (g.generate_file backend tok prompt entry.2 i N entry.1).1 = Except.ok code)
    (hc : ¬ 45000 < resultsLineTotal (results ++ [(entry.1, code)])) :
    generate_project_go g backend tok prompt N (entry :: rest) i results =
      generate_project_go g backend tok prompt N rest (i + 1)
        (results ++ [(entry.1, code)]) := by
  rw [generate_project_go, hgen]
  show (if 45000 < resultsLineTotal (results ++ [(entry.1, code)]) then
      Except.ok (results ++ [(entry.1, code)])
    else generate_project_go g backend tok prompt N rest (i + 1)
      (results ++ [(entry.1, code)])) = _
  rw [if_neg hc]

/-- Shape of any successful run of the generate_project loop, relative to the
remaining manifest entries: the results extend the accumulator by one
generated entry per processed manifest entry, in manifest order with
consecutive file numbers, and processing can stop early only once the running
line total exceeds 45000. -/
theorem generate_project_go_spec (g : CodeGenerator)
    (backend : Nat → ChatRequest → Except BackendErr String) (tok : String → Nat)
    (prompt : String) (N : Nat) :
    ∀ (fs : List (String × String)) (i : Nat) (acc rs : List (String × String)),
      generate_project_go g backend tok prompt N fs i acc = Except.ok rs →
      ∃ new : List (String × String), rs = acc ++ new ∧ new.length ≤ fs.length ∧
        (new.map Prod.fst) <+: (fs.map Prod.fst) ∧
        (new.length < fs.length → 45000 < resultsLineTotal rs) ∧
        (∀ (j : Nat) (hj : j < new.length) (hj2 : j < fs.length),
          (new.get ⟨j, hj⟩).1 = (fs.get ⟨j, hj2⟩).1 ∧
          (g.generate_file backend tok prompt (fs.get ⟨j, hj2⟩).2 (i + j) N
            (fs.get ⟨j, hj2⟩).1).1 = Except.ok (new.get ⟨j, hj⟩).2) := by
  intro fs
  induction fs with
  | nil =>
    intro i acc rs h
    rw [generate_project_go] at h
    injection h with h'
    refine ⟨[], by rw [← h']; simp, by simp, List.nil_prefix, ?_, ?_⟩
    · intro hlt
      simp at hlt
    · intro j hj
      simp at hj
  | cons hd tl ih =>
    intro i acc rs h
    rw [generate_project_go] at h
    split at h
    next e heq => exact absurd h (by simp)
    next code heq =>
      by_cases hc : 45000 < resultsLineTotal (acc ++ [(hd.1, code)])
      · rw [if_pos hc] at h
        injection h with h'
        refine ⟨[(hd.1, code)], by rw [← h'], by simp, ⟨tl.map Prod.fst, by simp⟩,
          fun _ => by rw [← h']; exact hc, ?_⟩
        intro j hj hj2
        have hj0 : j = 0 := Nat.lt_one_iff.mp hj
        subst hj0
        exact ⟨rfl, heq⟩
      · rw [if_neg hc] at h
        obtain ⟨new2, hrs, hlen, hpre, hstop, hent⟩ :=
          ih (i + 1) (acc ++ [(hd.1, code)]) rs h
        refine ⟨(hd.1, code) :: new2, by rw [hrs]; simp, by simpa using hlen, ?_, ?_, ?_⟩
        · obtain ⟨t, ht⟩ := hpre
          exact ⟨t, by simp [← ht]⟩
        · intro hlt
          exact hstop (by simpa using hlt)
        · intro j hj hj2
          cases j with
          | zero => exact ⟨rfl, heq⟩
          | succ k =>
            have hk : k < new2.length := by simpa using hj
            have hk2 : k < tl.length := by simpa using hj2
            have hk3 := hent k hk hk2
            refine ⟨?_, ?_⟩
            · simpa using hk3.1
            · have h2 := hk3.2
              have harith : i + 1 + k = i + (k + 1) := by omega
              rw [harith] at h2
              simpa using h2

/-- Invariant of the generate_project loop: if the accumulated line total is
within the ceiling on entry, every strict prefix of a successful result has
line total at most 45000 (the loop only ever continues past a result set
whose total is within the ceiling). -/
theorem generate_project_go_prefix_bound (g : CodeGenerator)
    (backend : Nat → ChatRequest → Except BackendErr String) (tok : String → Nat)
    (prompt : String) (N : Nat) :
    ∀ (fs : List (String × String)) (i : Nat) (acc rs : List (String × String)),
      resultsLineTotal acc ≤ 45000 →
      generate_project_go g backend tok prompt N fs i acc = Except.ok rs →
      ∀ p : List (String × String), p <+: rs → p ≠ rs →
        resultsLineTotal p ≤ 45000 := by
  intro fs
  induction fs with
  | nil =>
    intro i acc rs hacc h p hp hne
    rw [generate_project_go] at h
    injection h with h'
    subst h'
    exact le_trans (resultsLineTotal_mono p acc hp) hacc
  | cons hd tl ih =>
    intro i acc rs hacc h p hp hne
    rw [generate_project_go] at h
    split at h
    next e heq => exact absurd h (by simp)
    next code heq =>
      by_cases hc : 45000 < resultsLineTotal (acc ++ [(hd.1, code)])
      · rw [if_pos hc] at h
        injection h with h'
        subst h'
        have hlt : p.length < (acc ++ [(hd.1, code)]).length := by
          rcases Nat.lt_or_ge p.length (acc ++ [(hd.1, code)]).length with hl | hl
          · exact hl
          · exact absurd (hp.eq_of_length (Nat.le_antisymm hp.length_le hl)) hne
        have hple : p.length ≤ acc.length := by
          simp only [List.length_append, List.length_cons, List.length_nil] at hlt
          omega
        have hpacc : p <+: acc :=
          List.prefix_of_prefix_length_le hp (List.prefix_append acc [(hd.1, code)]) hple
        exact le_trans (resultsLineTotal_mono p acc hpacc) hacc
      · rw [if_neg hc] at h
        exact ih (i + 1) (acc ++ [(hd.1, code)]) rs (by omega) h p hp hne

/-! Claim C3 -/

/-- C3 counterexample: a single accepted result of 45001 lines makes the
aggregate exceed the 45000 ceiling, and the orchestrator still returns it —
the stop check runs only after the oversized entry has been accepted — so
the aggregate line count does exceed the configured ceiling. -/
theorem C3_counterexample :
    CodeGenerator.generate_project ⟨false, false⟩ alwaysBig lengthTok "p"
        [("main.py", "entry")] = Except.ok [("main.py", bigContent)] ∧
    45000 < resultsLineTotal [("main.py", bigContent)] := by
  have hline : splitlinesCount bigContent.data = 45001 := by
    rw [show bigContent.data = List.replicate 45001 '\n' from rfl,
      splitlinesCount_replicate_nl]
  have htot : resultsLineTotal [("main.py", bigContent)] = 45001 := by
    simp [resultsLineTotal, hline]
  have hgf : (CodeGenerator.generate_file ⟨false, false⟩ alwaysBig lengthTok
      "p" "entry" 1 1 "main.py").1 = Except.ok bigContent := by
    rw [generate_file_eq ⟨false, false⟩ alwaysBig lengthTok "p" "entry" "main.py"
      1 1 32000 5000 rfl]
    rw [attempts_step_accept ⟨false, false⟩ alwaysBig lengthTok "p" "entry" "main.py"
      32000 5000 ((⟨false, false⟩ : CodeGenerator).min_lines_for "main.py")
      ((⟨false, false⟩ : CodeGenerator).min_tokens_for "main.py") 1 0 [2, 3]
      bigContent rfl (by simp)]
  refine ⟨?_, by rw [htot]; omega⟩
  rw [CodeGenerator.generate_project]
  have hstep := go_step_stop ⟨false, false⟩ alwaysBig lengthTok "p" 1
    ("main.py", "entry") [] 1 [] bigContent hgf
    (by simp only [List.nil_append, htot]; omega)
  simpa using hstep

/-- C3 as amended: the aggregate line count can exceed the 45000 ceiling, but
only by the contribution of the entry accepted last — every strict prefix of
the results returned by generate_project has aggregate line count at most
45000, and once the total exceeds the ceiling generation stops with the
accepted content returned intact (stopped, never truncated). -/
theorem C3_prefix_total_bounded (g : CodeGenerator)
    (backend : Nat → ChatRequest → Except BackendErr String) (tok : String → Nat)
    (prompt : String) (fs rs : List (String × String))
    (h : g.generate_project backend tok prompt fs = Except.ok rs) :
    ∀ p : List (String × String), p <+: rs → p ≠ rs →
      resultsLineTotal p ≤ 45000 := by
  rw [CodeGenerator.generate_project] at h
  exact generate_project_go_prefix_bound g backend tok prompt fs.length fs 1 [] rs
    (by simp [resultsLineTotal]) h

/-- Witness for C3_prefix_total_bounded on a concrete successful run. -/
theorem C3_witness :
    resultsLineTotal [("a.py", "short")] ≤ 45000 :=
  C3_prefix_total_bounded ⟨false, false⟩ thirdTimeGood lengthTok "p"
    [("a.py", "x"), ("b.py", "y")] [("a.py", "short"), ("b.py", "short")] rfl
    [("a.py", "short")] (by decide) (by decide)

/-! Claim C4 -/

/-- C4: a successful generate_project invokes the generation loop once per
processed entry, in manifest order with file numbers 1, 2, ...; the result is
a prefix of the manifest in original order returned without error; entries
stop being processed only once the running accepted-line total has exceeded
the 45000 ceiling (early stop implies the total exceeds it), and conversely
once the total exceeds the ceiling no further entry is processed: before each
later entry was processed the running total — the total of every strict
prefix of the results — was still at most 45000. -/
theorem C4_orchestrator_halts (g : CodeGenerator)
    (backend : Nat → ChatRequest → Except BackendErr String) (tok : String → Nat)
    (prompt : String) (fs rs : List (String × String))
    (h : g.generate_project backend tok prompt fs = Except.ok rs) :
    (rs.map Prod.fst) <+: (fs.map Prod.fst) ∧
    rs.length ≤ fs.length ∧
    (rs.length < fs.length → 45000 < resultsLineTotal rs) ∧
    (∀ (j : Nat) (hj : j < rs.length) (hj2 : j < fs.length),
      (rs.get ⟨j, hj⟩).1 = (fs.get ⟨j, hj2⟩).1 ∧
      (g.generate_file backend tok prompt (fs.get ⟨j, hj2⟩).2 (j + 1) fs.length
        (fs.get ⟨j, hj2⟩).1).1 = Except.ok (rs.get ⟨j, hj⟩).2) ∧
    (∀ p : List (String × String), p <+: rs → p ≠ rs →
      resultsLineTotal p ≤ 45000) := by
  rw [CodeGenerator.generate_project] at h
  have hbound : ∀ p : List (String × String), p <+: rs → p ≠ rs →
      resultsLineTotal p ≤ 45000 :=
    generate_project_go_prefix_bound g backend tok prompt fs.length fs 1 [] rs
      (by simp [resultsLineTotal]) h
  obtain ⟨new, hrs, hlen, hpre, hstop, hent⟩ :=
    generate_project_go_spec g backend tok prompt fs.length fs 1 [] rs h
  rw [List.nil_append] at hrs
  subst hrs
  refine ⟨hpre, hlen, hstop, ?_, hbound⟩
  intro j hj hj2
  have hent2 := hent j hj hj2
  refine ⟨hent2.1, ?_⟩
  have harith : 1 + j = j + 1 := by omega
  rw [harith] at hent2
  exact hent2.2

/-- Witness for C4_orchestrator_halts on a concrete successful run. -/
theorem C4_witness :
    ([("a.py", "short"), ("b.py", "short")].map Prod.fst) <+:
      ([("a.py", "x"), ("b.py", "y")].map Prod.fst) :=
  (C4_orchestrator_halts ⟨false, false⟩ thirdTimeGood lengthTok "p"
    [("a.py", "x"), ("b.py", "y")] [("a.py", "short"), ("b.py", "short")] rfl).1

/-! Claim C10 -/

/-- C10: generate_project on an empty manifest returns the empty result map
without error; the zero file count never reaches the budget division, which
would fail, because the loop body (and with it generate_file and
_calculate_limits) is never entered. -/
theorem C10_empty_manifest (g : CodeGenerator)
    (backend : Nat → ChatRequest → Except BackendErr String) (tok : String → Nat)
    (prompt : String) :
    g.generate_project backend tok prompt [] = Except.ok [] ∧
    g._calculate_limits 0 = Except.error GenError.zeroDivisionError :=
  ⟨rfl, rfl⟩

/-! Claim C7 -/

/-- C7: the classifier returns true exactly when the lowercased path contains
one of the keywords "ui", "screen", "window", or the path ends with one of
the extensions ".html", ".ui", ".xml", ".css"; the keyword test is on the
lowercased characters, hence case-insensitive, and every other path yields
false. -/
theorem C7_classifier (g : CodeGenerator) (file_path : String) :
    g._is_ui_file file_path = true ↔
      ((∃ kw ∈ (["ui", "screen", "window"] : List String),
          kw.toList <:+: (file_path.toList.map Char.toLower)) ∨
       (∃ ext ∈ ([".html", ".ui", ".xml", ".css"] : List String),
          ext.toList <:+ file_path.toList)) := by
  simp only [CodeGenerator._is_ui_file, lower_contains, ends_with,
    Bool.or_eq_true, decide_eq_true_eq, List.mem_cons, List.mem_singleton,
    List.not_mem_nil, or_false, exists_eq_or_imp, exists_eq_left]
  tauto

/-! Claim C8 -/

mutual
/-- The bottom-up walk always succeeds on a directory node and leaves it
present and empty: every file and subdirectory strictly below it has been
removed, and every os.rmdir ran on an already-emptied directory. -/
theorem clearWalk_clears : ∀ t : FSTree, clearWalk t = some (FSTree.dir [] [])
  | FSTree.dir files subs => by
    rw [clearWalk, clearList_clears subs]
    show (if (subs.map fun _ => FSTree.dir [] []).all FSTree.isEmptyDir then
        some (FSTree.dir [] []) else none) = some (FSTree.dir [] [])
    rw [if_pos]
    simp [List.all_eq_true, FSTree.isEmptyDir]

/-- Clearing a list of subdirectories always succeeds and empties each. -/
theorem clearList_clears : ∀ l : List (String × FSTree),
    clearList l = some (l.map fun _ => FSTree.dir [] [])
  | [] => by rw [clearList]; rfl
  | (nm, s) :: rest => by
    rw [clearList, clearWalk_clears s, clearList_clears rest]
    rfl
end

/-- C8: clear_project_directory removes every file and every subdirectory
strictly under the base directory and leaves the base directory itself
present and empty; the walk never fails (each rmdir sees an already-emptied
directory). -/
theorem C8_clear_project_directory (base : FSTree) :
    AdvancedFileWriter.clear_project_directory base = some (FSTree.dir [] []) := by
  rw [AdvancedFileWriter.clear_project_directory]
  exact clearWalk_clears base

/-! Claim C9 -/

/-- C9: the presentation-keyword check is a plain substring test on the whole
lowercased path, so any path whose lowercase form contains "ui" anywhere is
classified as a presentation file; in particular the default manifest entry
requirements.txt and build.gradle are so classified, and in strict mode they
are subject to the 500-line / 2000-token minimums instead of 20 / 300;
requirements.txt is an entry of every manifest _generate_file_structure
produces. -/
theorem C9_ui_substring_overreach :
    (∀ (g : CodeGenerator) (file_path : String),
        ("ui".toList <:+: (file_path.toList.map Char.toLower)) →
        g._is_ui_file file_path = true) ∧
    (∀ g : CodeGenerator,
        g._is_ui_file "requirements.txt" = true ∧
        g._is_ui_file "build.gradle" = true ∧
        g.min_lines_for "requirements.txt" = 500 ∧
        g.min_tokens_for "requirements.txt" = 2000 ∧
        g.min_lines_for "build.gradle" = 500 ∧
        g.min_tokens_for "build.gradle" = 2000) ∧
    (∀ features tech_stack : String,
        "requirements.txt" ∈
          (AICoderPro._generate_file_structure features tech_stack).map Prod.fst) := by
  refine ⟨?_, ?_, ?_⟩
  · intro g file_path h
    have hkw : lower_contains file_path "ui" = true := by
      rw [lower_contains]
      exact decide_eq_true h
    simp [CodeGenerator._is_ui_file, hkw]
  · intro g
    refine ⟨?_, ?_, ?_, ?_, ?_, ?_⟩
    · rw [CodeGenerator._is_ui_file]; decide
    · rw [CodeGenerator._is_ui_file]; decide
    · rw [CodeGenerator.min_lines_for, CodeGenerator._is_ui_file]; decide
    · rw [CodeGenerator.min_tokens_for, CodeGenerator._is_ui_file]; decide
    · rw [CodeGenerator.min_lines_for, CodeGenerator._is_ui_file]; decide
    · rw [CodeGenerator.min_tokens_for, CodeGenerator._is_ui_file]; decide
  · intro features tech_stack
    rw [AICoderPro._generate_file_structure]
    have hbase : "requirements.txt" ∈ base_files.map Prod.fst := by decide
    split_ifs <;> simp_all [base_files]
/-- Witness for C9_ui_substring_overreach: a path containing "ui" only as part
of the word gui is classified as a presentation file. -/
theorem C9_witness :
    CodeGenerator._is_ui_file ⟨false, false⟩ "gui_app.py" = true :=
  C9_ui_substring_overreach.1 ⟨false, false⟩ "gui_app.py" (by decide)
